import Mathlib

/-!
Verification of the execution-resilience layer of the CineCut pipeline:
checkpoint store (`checkpoint.py`), inference result cache
(`inference/cache.py`), VRAM scheduler (`inference/vram.py`) and the
model-server lifecycle managers (`inference/engine.py`,
`inference/text_engine.py`).

Python values that flow through `json` / `msgpack` are modelled by small
inductive value types; machine-level details that the claims do not touch
(IEEE floats in timestamps and mtimes, byte-level encodings) are modelled
by integer scalars, which `json`/`msgpack` round-trip exactly just as they
do doubles.
-/

namespace Cinecut

/-- Model of a JSON value as produced by `json.loads` (floats omitted:
the checkpoint payload contains none; strings, ints, bools, null, arrays
and string-keyed objects cover every value the code stores). -/
inductive Json where
  | str (s : String)
  | int (n : Int)
  | bool (b : Bool)
  | null
  | arr (xs : List Json)
  | obj (kvs : List (String × Json))
deriving Repr

/-- First-match association lookup, the semantics of `d[k]` on a Python
dict rendered as a key-value list (real dicts have unique keys). -/
def lookupKey (kvs : List (String × Json)) (k : String) : Option Json :=
  match kvs with
  | [] => none
  | (k2, v) :: rest => if k2 = k then some v else lookupKey rest k

/-- Model of the `PipelineCheckpoint` dataclass (checkpoint.py lines
12-35).  Python dataclasses do not enforce the annotated field types, so
every field holds a dynamic `Json` value, exactly as CPython would. -/
structure PipelineCheckpoint where
  source_file : Json
  vibe : Json
  stages_complete : Json
  proxy_path : Json
  keyframe_count : Json
  dialogue_event_count : Json
  inference_complete : Json
  manifest_path : Json
  assembly_manifest_path : Json
deriving Repr

/-- The dataclass field names of `PipelineCheckpoint`, in declaration
order (used by the `**data` keyword-argument check). -/
def checkpointFields : List String :=
  ["source_file", "vibe", "stages_complete", "proxy_path", "keyframe_count",
   "dialogue_event_count", "inference_complete", "manifest_path",
   "assembly_manifest_path"]

/-- Model of `json.dumps(asdict(checkpoint))` at the value level:
`asdict` renders every field under its name, in declaration order. -/
def toJsonCheckpoint (c : PipelineCheckpoint) : Json :=
  .obj [("source_file", c.source_file),
        ("vibe", c.vibe),
        ("stages_complete", c.stages_complete),
        ("proxy_path", c.proxy_path),
        ("keyframe_count", c.keyframe_count),
        ("dialogue_event_count", c.dialogue_event_count),
        ("inference_complete", c.inference_complete),
        ("manifest_path", c.manifest_path),
        ("assembly_manifest_path", c.assembly_manifest_path)]

/-- Model of `PipelineCheckpoint(**data)` (checkpoint.py line 45):
raises `TypeError` (here: `none`) when `data` is not a mapping, contains
a key that is not a field name, or misses one of the two required fields
`source_file` / `vibe`; the remaining fields default (`stages_complete`
to `[]`, the stage outputs to `None`). -/
def fromJsonCheckpoint (j : Json) : Option PipelineCheckpoint :=
  match j with
  | .obj kvs =>
    if kvs.all (fun kv => checkpointFields.contains kv.1) then
      match lookupKey kvs "source_file", lookupKey kvs "vibe" with
      | some sf, some vb =>
        some { source_file := sf
               vibe := vb
               stages_complete := (lookupKey kvs "stages_complete").getD (.arr [])
               proxy_path := (lookupKey kvs "proxy_path").getD .null
               keyframe_count := (lookupKey kvs "keyframe_count").getD .null
               dialogue_event_count := (lookupKey kvs "dialogue_event_count").getD .null
               inference_complete := (lookupKey kvs "inference_complete").getD .null
               manifest_path := (lookupKey kvs "manifest_path").getD .null
               assembly_manifest_path := (lookupKey kvs "assembly_manifest_path").getD .null }
      | _, _ => none
    else none
  | _ => none

/-- Decoded state of the text of the checkpoint file: either it parses
as JSON (to some value) or `json.loads` raises `JSONDecodeError`. -/
inductive TextContent where
  | invalid
  | valid (j : Json)

/-- Raw content of the checkpoint file: `Path.read_text(encoding="utf-8")`
either decodes the bytes (yielding text) or raises `UnicodeDecodeError`. -/
inductive FileBytes where
  | notUtf8
  | utf8 (t : TextContent)

/-- Exceptions `load_checkpoint` can let escape in the model. -/
inductive PyError where
  | unicodeDecodeError
deriving DecidableEq, Repr

/-- Model of `load_checkpoint(work_dir)` (checkpoint.py lines 38-47) on
the content of `work_dir / CHECKPOINT_FILENAME` (`none` = file absent).
The `except` clause catches exactly `json.JSONDecodeError` and
`TypeError`; `UnicodeDecodeError` raised by `read_text` inside the `try`
is a `ValueError` subclass belonging to neither class, so it
propagates. -/
def load_checkpoint : Option FileBytes → Except PyError (Option PipelineCheckpoint)
  | none => .ok none
  | some .notUtf8 => .error .unicodeDecodeError
  | some (.utf8 .invalid) => .ok none
  | some (.utf8 (.valid j)) => .ok (fromJsonCheckpoint j)

/-- Model of the file content written by `save_checkpoint(checkpoint,
work_dir)` (checkpoint.py lines 50-69): `json.dumps(asdict(checkpoint))`
always produces valid UTF-8 JSON text for the serialized value. -/
def save_checkpoint_content (c : PipelineCheckpoint) : Option FileBytes :=
  some (.utf8 (.valid (toJsonCheckpoint c)))

/-! Atomic-write mechanics shared by `save_checkpoint` (checkpoint.py
lines 60-69) and `save_cache` (cache.py lines 122-131); the two
`try`/`except` bodies are line-for-line identical:

    fd, tmp_path = tempfile.mkstemp(dir=..., suffix=...)
    try:
        os.write(fd, data); os.fsync(fd); os.close(fd)
        os.replace(tmp_path, dest)
    except Exception:
        os.close(fd); os.unlink(tmp_path); raise

Failures are injected per step; `os.close` on an already-closed
descriptor raises `OSError` (EBADF) in CPython. -/

/-- Which step of the atomic-write `try` body raises, if any. -/
inductive WriteFault where
  | noFault
  | write
  | fsync
  | close
  | replace
deriving DecidableEq, Repr

/-- Filesystem-visible state threaded through the atomic write: the
temporary file, the open descriptor and the destination. -/
structure FsState where
  tmpExists : Bool
  fdOpen : Bool
  destUpdated : Bool
deriving DecidableEq, Repr

/-- Error that finally propagates out of the atomic write. -/
inductive RaisedErr where
  | original (f : WriteFault)
  | badFd
deriving DecidableEq, Repr

/-- The `try` body: `os.write`, `os.fsync`, `os.close`, `os.replace`,
with the injected fault raising at its step.  A failing `os.close` still
releases the descriptor (Linux semantics). -/
def runTryBody (fault : WriteFault) (s : FsState) : FsState × Option WriteFault :=
  if fault = .write then (s, some .write)
  else if fault = .fsync then (s, some .fsync)
  else
    let s1 := { s with fdOpen := false }
    if fault = .close then (s1, some .close)
    else if fault = .replace then (s1, some .replace)
    else ({ s1 with tmpExists := false, destUpdated := true }, none)

/-- The `except Exception` cleanup: `os.close(fd)` raises EBADF when the
descriptor was already closed inside the `try` body, which aborts the
cleanup before `os.unlink(tmp_path)` runs. -/
def runExceptBody (s : FsState) (orig : WriteFault) : FsState × RaisedErr :=
  if s.fdOpen then
    ({ s with fdOpen := false, tmpExists := false }, .original orig)
  else (s, .badFd)

/-- Model of `save_checkpoint` / `save_cache` after `tempfile.mkstemp`
has created the temporary file: runs the `try` body and, on a raise, the
`except` cleanup; returns the final filesystem state and the propagated
error (`none` = success). -/
def save_atomic (fault : WriteFault) : FsState × Option RaisedErr :=
  let s0 : FsState := { tmpExists := true, fdOpen := true, destUpdated := false }
  match runTryBody fault s0 with
  | (s, none) => (s, none)
  | (s, some f) =>
    let r := runExceptBody s f
    (r.1, some r.2)

/-! Inference result cache (inference/cache.py).  Cache payloads travel
through `msgpack.packb` / `msgpack.unpackb(raw=False)`, modelled by the
value type `Msg` (floats are represented by integer scalars: msgpack
round-trips IEEE doubles exactly, so equality tests on them behave like
equality on these integers). -/

/-- Model of a msgpack value after `unpackb(raw=False)`: strings, ints,
bools, nil, arrays and string-keyed maps (every key the code writes is a
string). -/
inductive Msg where
  | str (s : String)
  | int (n : Int)
  | bool (b : Bool)
  | nil
  | arr (xs : List Msg)
  | map (kvs : List (String × Msg))
deriving Repr

/-- First-match association lookup on a key-value list, the semantics of
`d[k]` on a Python dict (real dicts have unique keys). -/
def lookupMsg : List (String × Msg) → String → Option Msg
  | [], _ => none
  | (k2, v) :: rest, k => if k2 = k then some v else lookupMsg rest k

/-- Subscript `v["k"]` on a dynamic value: succeeds only on a map that
has the key; on anything else Python raises `TypeError`/`KeyError`,
modelled as `none`. -/
def getItem : Msg → String → Option Msg
  | .map kvs, k => lookupMsg kvs k
  | _, _ => none

/-- Iteration `for x in v`: lists yield their elements, strings their
one-character substrings, dicts their keys; ints, bools and `None` raise
`TypeError` (modelled as `none`). -/
def pyIter : Msg → Option (List Msg)
  | .arr xs => some xs
  | .str s => some (s.toList.map fun c => Msg.str (String.singleton c))
  | .map kvs => some (kvs.map fun kv => Msg.str kv.1)
  | _ => none

/-- Python `==` between a stored dynamic value and an integer scalar:
ints compare numerically, `True`/`False` equal `1`/`0`, every other type
compares unequal (no exception). -/
def msgEqInt : Msg → Int → Bool
  | .int k, n => k == n
  | .bool b, n => (if b then (1 : Int) else 0) == n
  | _, _ => false

/-- Model of the `KeyframeRecord` dataclass (models.py): dynamic field
values, since dataclasses do not enforce annotated types. -/
structure KeyframeRecord where
  timestamp_s : Msg
  frame_path : Msg
  source : Msg
deriving Repr

/-- Model of the `SceneDescription` dataclass (inference/models.py). -/
structure SceneDescription where
  visual_content : Msg
  mood : Msg
  action : Msg
  setting : Msg
deriving Repr

/-- Result sequence handled by the cache: (record, description-or-None)
pairs, as produced by `run_inference_stage`. -/
abbrev CacheResults := List (KeyframeRecord × Option SceneDescription)

/-- Model of `asdict(record)` for a `KeyframeRecord`. -/
def asdictRecord (r : KeyframeRecord) : Msg :=
  .map [("timestamp_s", r.timestamp_s), ("frame_path", r.frame_path),
        ("source", r.source)]

/-- Model of `asdict(desc)` for a `SceneDescription`. -/
def asdictDesc (d : SceneDescription) : Msg :=
  .map [("visual_content", d.visual_content), ("mood", d.mood),
        ("action", d.action), ("setting", d.setting)]

/-- Model of `KeyframeRecord(**m)`: `m` must be a mapping whose keys are
exactly the three field names (no defaults); otherwise `TypeError`. -/
def kwargsRecord (m : Msg) : Option KeyframeRecord :=
  match m with
  | .map kvs =>
    if kvs.all (fun kv => kv.1 = "timestamp_s" ∨ kv.1 = "frame_path" ∨ kv.1 = "source") then
      match getItem (.map kvs) "timestamp_s", getItem (.map kvs) "frame_path",
            getItem (.map kvs) "source" with
      | some ts, some fp, some src => some { timestamp_s := ts, frame_path := fp, source := src }
      | _, _, _ => none
    else none
  | _ => none

/-- Model of `SceneDescription(**m)`: `m` must be a mapping whose keys
are exactly the four field names; otherwise `TypeError`. -/
def kwargsDesc (m : Msg) : Option SceneDescription :=
  match m with
  | .map kvs =>
    if kvs.all (fun kv => kv.1 = "visual_content" ∨ kv.1 = "mood" ∨ kv.1 = "action"
        ∨ kv.1 = "setting") then
      match getItem (.map kvs) "visual_content", getItem (.map kvs) "mood",
            getItem (.map kvs) "action", getItem (.map kvs) "setting" with
      | some vc, some md, some ac, some st =>
        some { visual_content := vc, mood := md, action := ac, setting := st }
      | _, _, _, _ => none
    else none
  | _ => none

/-- The `stat()` fields the cache keys on: last-modified time and byte
size of the source video (cache.py doc, lines 31-38). -/
structure FileStat where
  mtime : Int
  size : Int
deriving DecidableEq, Repr

/-- Encoding of one `(record, description)` pair inside the `"results"`
array (cache.py lines 110-117). -/
def encodeItem (rd : KeyframeRecord × Option SceneDescription) : Msg :=
  .map [("record", asdictRecord rd.1),
        ("description", match rd.2 with | some d => asdictDesc d | none => .nil)]

/-- Model of the payload dict built by `save_cache` (cache.py lines
104-117): invalidation metadata from a fresh `stat()` of the source file
plus the full results sequence. -/
def cachePayload (results : CacheResults) (sourcePath : String) (st : FileStat) : Msg :=
  .map [("metadata", .map [("source_file", .str sourcePath),
                           ("mtime", .int st.mtime),
                           ("size", .int st.size)]),
        ("results", .arr (results.map encodeItem))]

/-- Content of the cache file: either `msgpack.unpackb` raises
(truncated or corrupt bytes) or it yields a value. -/
inductive CacheBytes where
  | corrupt
  | packed (m : Msg)

/-- Model of the cache file written by `save_cache(results, source_file,
work_dir)` (cache.py lines 82-133): the packed payload (the atomic-write
mechanics are `save_atomic` above). -/
def save_cache_content (results : CacheResults) (sourcePath : String) (st : FileStat) :
    Option CacheBytes :=
  some (.packed (cachePayload results sourcePath st))

/-- Parsing of one element of `payload["results"]` (cache.py lines
176-180): `KeyframeRecord(**item["record"])`, then
`SceneDescription(**item["description"])` unless the description is
`None`. -/
def parseItem (item : Msg) : Option (KeyframeRecord × Option SceneDescription) :=
  match getItem item "record" with
  | none => none
  | some rm =>
    match kwargsRecord rm with
    | none => none
    | some r =>
      match getItem item "description" with
      | none => none
      | some dm =>
        match dm with
        | .nil => some (r, none)
        | _ =>
          match kwargsDesc dm with
          | none => none
          | some d => some (r, some d)

/-- Parsing of the whole `payload["results"]` loop: any failing element
aborts the `try` block (caught, overall cache miss). -/
def parseItems : List Msg → Option CacheResults
  | [] => some []
  | item :: rest =>
    match parseItem item with
    | none => none
    | some rd =>
      match parseItems rest with
      | none => none
      | some tl => some (rd :: tl)

/-- Model of `load_cache(source_file, work_dir)` (cache.py lines
136-186) on the cache file content (`none` = file absent) and the fresh
`stat()` of the source file (`none` = `stat` raises, e.g. the source was
deleted).  Everything after the existence test runs inside
`try ... except Exception: return None`, so the function is total. -/
def load_cache (file : Option CacheBytes) (st : Option FileStat) : Option CacheResults :=
  match file with
  | none => none
  | some .corrupt => none
  | some (.packed m) =>
    match getItem m "metadata" with
    | none => none
    | some meta =>
      match st with
      | none => none
      | some stv =>
        match getItem meta "mtime" with
        | none => none
        | some mt =>
          if msgEqInt mt stv.mtime then
            match getItem meta "size" with
            | none => none
            | some sz =>
              if msgEqInt sz stv.size then
                match getItem m "results" with
                | none => none
                | some rsv =>
                  match pyIter rsv with
                  | none => none
                  | some items => parseItems items
              else none
          else none

/-- Stat-independent decoding of a cache payload: the stored `"mtime"`
and `"size"` values together with the parsed results sequence, mirroring
the parsing steps of `load_cache` without the freshness comparison.
Used to state when a payload "deserializes". -/
def decodeCachePayload (m : Msg) : Option (Msg × Msg × CacheResults) :=
  match getItem m "metadata" with
  | none => none
  | some meta =>
    match getItem meta "mtime" with
    | none => none
    | some mt =>
      match getItem meta "size" with
      | none => none
      | some sz =>
        match getItem m "results" with
        | none => none
        | some rsv =>
          match pyIter rsv with
          | none => none
          | some items =>
            match parseItems items with
            | none => none
            | some rs => some (mt, sz, rs)

/-! VRAM scheduler (inference/vram.py).  `nvidia-smi` invocations are
modelled by an outcome value; the polling loop of `wait_for_vram` is
modelled with discrete time: poll `k` happens `k * poll_interval` after
entry (queries idealized as instantaneous), `remaining` is the time left
until the deadline, and `time.sleep(poll_interval)` consumes
`poll_interval` of it. -/

/-- One stripped output line of `nvidia-smi`: either `int()` parses it
or it raises `ValueError`. -/
inductive SmiLine where
  | intLine (n : Int)
  | junkLine
deriving DecidableEq, Repr

/-- Outcome of `subprocess.run(["nvidia-smi", ...], check=True,
timeout=10)`: the executable may be absent (`FileNotFoundError`), the
run may exceed its own timeout (`TimeoutExpired`), or the process runs
to completion with an exit code and output lines. -/
inductive SmiOutcome where
  | execMissing
  | timedOut
  | ran (exitCode : Nat) (lines : List SmiLine)
deriving DecidableEq, Repr

/-- The reasons `check_vram_free_mib` raises `VramError` (vram.py lines
28-38). -/
inductive VramReason where
  | smiFailed
  | parseFailed
  | emptyOutput
  | belowMinimum
deriving DecidableEq, Repr

/-- Exceptions escaping `check_vram_free_mib`: the OS-level errors from
`subprocess.run` that no `except` clause catches, and `VramError`. -/
inductive VramCheckError where
  | fileNotFound
  | timeoutExpired
  | vram (r : VramReason)
deriving DecidableEq, Repr

/-- Minimum free VRAM for LLaVA, `VRAM_MINIMUM_MIB` (vram.py line 7). -/
def VRAM_MINIMUM_MIB : Int := 6144

/-- Model of `check_vram_free_mib()` (vram.py lines 10-40): the `try`
block catches exactly `CalledProcessError` (nonzero exit), `ValueError`
(unparsable line) and `IndexError` (empty output), re-raising each as
`VramError`; `FileNotFoundError` and `TimeoutExpired` propagate as-is.
A parsed value below `VRAM_MINIMUM_MIB` also raises `VramError`. -/
def check_vram_free_mib (o : SmiOutcome) : Except VramCheckError Int :=
  match o with
  | .execMissing => .error .fileNotFound
  | .timedOut => .error .timeoutExpired
  | .ran c lines =>
    if c ≠ 0 then .error (.vram .smiFailed)
    else
      match lines with
      | [] => .error (.vram .emptyOutput)
      | .junkLine :: _ => .error (.vram .parseFailed)
      | .intLine n :: _ =>
        if n < VRAM_MINIMUM_MIB then .error (.vram .belowMinimum)
        else .ok n

/-- Model of `_check_vram_free_mib_raw()` (vram.py lines 52-61): same
query, but `except Exception: return 0` — every failure, including a
missing executable, reports as 0 MiB free. -/
def check_vram_raw : SmiOutcome → Int
  | .ran 0 (.intLine n :: _) => n
  | _ => 0

/-- Error raised by `wait_for_vram` on deadline expiry. -/
inductive VramError where
  | timeout
deriving DecidableEq, Repr

/-- The `while time.monotonic() < deadline` loop of `wait_for_vram`
(vram.py lines 76-81): at poll index `k` with `remaining` time before
the deadline, query free memory, return on success, else sleep
`interval` and retry.  A zero `interval` makes the Python loop spin on a
zero-length sleep until the clock alone passes the deadline, ending in
the same timeout error, which the model maps to directly. -/
def waitLoop (minFree : Int) (interval : Nat) (free : Nat → Int) (k remaining : Nat) :
    Except VramError Unit :=
  if 0 < remaining then
    if minFree ≤ free k then .ok ()
    else
      if 0 < interval then waitLoop minFree interval free (k + 1) (remaining - interval)
      else .error .timeout
  else .error .timeout
termination_by remaining
decreasing_by simp_wf; omega

/-- Model of `wait_for_vram(min_free_mib, poll_interval_s, timeout_s)`
(vram.py lines 64-84): `free k` is the value `_check_vram_free_mib_raw`
reports at the poll occurring `k * interval` after entry. -/
def wait_for_vram (minFree : Int) (interval timeout : Nat) (free : Nat → Int) :
    Except VramError Unit :=
  waitLoop minFree interval free 0 timeout

/-! Vision inference stage (inference/engine.py lines 150-215).  The
network interaction of one frame is abstracted by an outcome value; note
that `Path(record.frame_path).read_bytes()` runs before the `try` block
of `describe_frame`, so a failing read raises out of the function. -/

/-- Outcome of processing one frame in `describe_frame`: the image read
may raise `OSError` (before the `try`); the `except` tuple at engine.py
line 191 catches `requests.RequestException` (request/HTTP errors),
`KeyError` / `IndexError` / `json.JSONDecodeError` (malformed response
body raising one of those) and `pydantic.ValidationError` (schema
violation) — but not `TypeError` or `AttributeError`, which a malformed
response can also raise: a JSON-array body makes
`r.json()["choices"]` a `TypeError`, a null `"message"` makes
`None["content"]` a `TypeError`, and a null `"content"` makes
`None.strip()` an `AttributeError` (`malformedUncaught`); otherwise a
validated description comes back. -/
inductive FrameOutcome where
  | readFails
  | requestFails
  | malformedResponse
  | malformedUncaught
  | invalidSchema
  | ok (d : SceneDescription)

/-- The exceptions `describe_frame` lets escape: `OSError` from the
image read, and `TypeError`/`AttributeError` from a malformed response
shape that the `except` tuple omits. -/
inductive UncaughtError where
  | osError
  | typeOrAttrError
deriving DecidableEq, Repr

/-- Model of `LlavaEngine.describe_frame(record)` (engine.py lines
150-193): the caught per-frame failures return `None`; a failing image
read and a malformed response raising `TypeError`/`AttributeError`
propagate. -/
def describe_frame : FrameOutcome → Except UncaughtError (Option SceneDescription)
  | .readFails => .error .osError
  | .requestFails => .ok none
  | .malformedResponse => .ok none
  | .malformedUncaught => .error .typeOrAttrError
  | .invalidSchema => .ok none
  | .ok d => .ok (some d)

/-- Model of the loop of `run_inference_stage(records, ...)` (engine.py
lines 196-215): one `describe_frame` call per record in order, each
appending `(record, desc)`; an uncaught exception aborts the stage.  The
surrounding `LlavaEngine` scope is modelled separately
(`engineScope`). -/
def run_inference_stage :
    List (KeyframeRecord × FrameOutcome) →
      Except UncaughtError (List (KeyframeRecord × Option SceneDescription))
  | [] => .ok []
  | (r, o) :: rest =>
    match describe_frame o with
    | .error e => .error e
    | .ok d =>
      match run_inference_stage rest with
      | .error e => .error e
      | .ok tl => .ok ((r, d) :: tl)

/-- Claim-side result of one frame: a caught failure becomes an absent
description, a success keeps its description (stated from the claim for
comparison with the transcribed loop). -/
def frameResultSpec : FrameOutcome → Option SceneDescription
  | .ok d => some d
  | _ => none

/-! Model-server lifecycle managers (inference/engine.py lines 30-148
and inference/text_engine.py lines 47-165).  `LlavaEngine` and
`TextEngine` share the identical `__enter__`/`__exit__` structure; they
differ only in the pre-flight call (`assert_vram_available()` vs
`wait_for_vram()`), both of which can raise before the lock is touched.
The scope is modelled as a sequential program over the externally
visible state, emitting a trace of lock and process events. -/

/-- Observable events of a lifecycle scope. -/
inductive Event where
  | lockAcquired
  | lockReleased
  | procSpawned
  | procTerminated
deriving DecidableEq, Repr

/-- External state a lifecycle scope acts on: the GPU_LOCK holder count,
whether a server process was spawned in this scope, whether that process
is still running, and the engine's `_process` field. -/
structure LifecycleState where
  holders : Nat
  spawned : Bool
  running : Bool
  procField : Bool
deriving DecidableEq, Repr

/-- State before the scope is entered. -/
def initialLifecycle : LifecycleState :=
  { holders := 0, spawned := false, running := false, procField := false }

/-- Model of `GPU_LOCK.acquire()` (blocks until free; in the
single-scope model the lock is free so it proceeds). -/
def acquireLock (s : LifecycleState) : LifecycleState :=
  { s with holders := s.holders + 1 }

/-- Model of `GPU_LOCK.release()`. -/
def releaseLock (s : LifecycleState) : LifecycleState :=
  { s with holders := s.holders - 1 }

/-- Model of `subprocess.Popen(cmd, ...)` succeeding: the server process
exists and runs, and `self._process` is set. -/
def spawnProc (s : LifecycleState) : LifecycleState :=
  { s with spawned := true, running := true, procField := true }

/-- The child exits on its own during the health poll (bad weights path,
OOM), observed by `self._process.poll() is not None`. -/
def procDies (s : LifecycleState) : LifecycleState :=
  { s with running := false }

/-- Model of the escalating termination `terminate()` → `wait(10)` →
`kill()` → `wait()`: the final `wait` returns only once the process has
exited. -/
def terminateProc (s : LifecycleState) : LifecycleState :=
  { s with running := false }

/-- How far `__enter__` gets: pre-flight may raise before the lock,
`Popen` may raise, the health poll may see the child exit early or may
time out (terminating the child first), or the server becomes
healthy. -/
inductive EnterOutcome where
  | preflightRaises
  | spawnRaises
  | earlyExit
  | healthTimeout
  | healthy
deriving DecidableEq, Repr

/-- Whether the tail of `_stop` (closing the debug log file) raises
after the process has been dealt with. -/
inductive StopBehavior where
  | normal
  | closeRaises
deriving DecidableEq, Repr

/-- Model of `__enter__` (engine.py lines 45-58, text_engine.py lines
60-74 with `_start`/`_wait_for_health`): returns the new state, the
event trace and whether it raised.  On every failure after acquisition
the `except` clause releases the lock and re-raises; on health timeout
the stuck child is terminated before the raise. -/
def engineEnter (o : EnterOutcome) (s : LifecycleState) :
    LifecycleState × List Event × Bool :=
  match o with
  | .preflightRaises => (s, [], true)
  | .spawnRaises =>
    (releaseLock (acquireLock s), [.lockAcquired, .lockReleased], true)
  | .earlyExit =>
    (releaseLock (procDies (spawnProc (acquireLock s))),
     [.lockAcquired, .procSpawned, .lockReleased], true)
  | .healthTimeout =>
    (releaseLock (terminateProc (spawnProc (acquireLock s))),
     [.lockAcquired, .procSpawned, .procTerminated, .lockReleased], true)
  | .healthy =>
    (spawnProc (acquireLock s), [.lockAcquired, .procSpawned], false)

/-- Model of `_stop` (engine.py lines 134-148): terminate the process if
`self._process is not None and self._process.poll() is None`, then clear
the field. -/
def engineStop (s : LifecycleState) : LifecycleState :=
  let s1 := if s.procField && s.running then terminateProc s else s
  { s1 with procField := false }

/-- Events `_stop` emits. -/
def stopEvents (s : LifecycleState) : List Event :=
  if s.procField && s.running then [.procTerminated] else []

/-- Model of `__exit__` (engine.py lines 60-67, text_engine.py lines
76-83): `try: self._stop()` with the lock release in `finally`, so the
release happens even when `_stop` raises, and always after the
shutdown. -/
def engineExit (b : StopBehavior) (s : LifecycleState) :
    LifecycleState × List Event × Bool :=
  (releaseLock (engineStop s), stopEvents s ++ [.lockReleased],
   b == StopBehavior.closeRaises)

/-- Python `with` semantics over the engine: `__exit__` runs exactly
when `__enter__` succeeded, whether or not the body raised. -/
def engineScope (o : EnterOutcome) (bodyRaises : Bool) (b : StopBehavior)
    (s : LifecycleState) : LifecycleState × List Event × Bool :=
  match engineEnter o s with
  | (s1, tr, true) => (s1, tr, true)
  | (s1, tr, false) =>
    let r := engineExit b s1
    (r.1, tr ++ r.2.1, bodyRaises || r.2.2)

/-- Order check on a trace: after any lock release, no further process
termination occurs — i.e. every shutdown precedes the release that
follows it. -/
def shutdownPrecedesRelease : List Event → Bool
  | [] => true
  | Event.lockReleased :: rest =>
    !(rest.contains Event.procTerminated) && shutdownPrecedesRelease rest
  | _ :: rest => shutdownPrecedesRelease rest

/-! Shared-mutex interleaving model for the two lifecycle scopes
(inference/__init__.py lines 4-7: one module-level `threading.Lock`
serializing all GPU use; both engines acquire it in `__enter__` and
release it in `__exit__`). -/

/-- Position of one engine scope in its lifecycle, as seen by the shared
lock: before acquisition, holding while starting, holding while the body
runs (healthy window), and finished (lock released, whether by startup
failure or by `__exit__`). -/
inductive Phase where
  | idle
  | starting
  | healthy
  | finished
deriving DecidableEq, Repr

/-- Joint state of the two scopes and the shared `GPU_LOCK` holder
count. -/
structure TwoScopes where
  holders : Nat
  p1 : Phase
  p2 : Phase
deriving DecidableEq, Repr

/-- Whether a scope in this phase holds the shared lock. -/
def holdsLock : Phase → Bool
  | .starting => true
  | .healthy => true
  | _ => false

/-- Number of scopes currently holding the lock. -/
def lockCount (s : TwoScopes) : Nat :=
  (if holdsLock s.p1 then 1 else 0) + (if holdsLock s.p2 then 1 else 0)

/-- Interleaved transitions of two lifecycle scopes against the shared
`GPU_LOCK`: `threading.Lock.acquire()` proceeds only when no one holds
the lock; a holder either becomes healthy, or fails startup and releases
(the `except` path of `__enter__`), and a healthy scope exits and
releases (`__exit__`).  The thread that acquired is the one modelled as
releasing, but nothing in the transitions depends on which scope is the
vision and which the text engine. -/
inductive ScopeStep : TwoScopes → TwoScopes → Prop where
  | acquire1 (s : TwoScopes) : s.p1 = .idle → s.holders = 0 →
      ScopeStep s { holders := s.holders + 1, p1 := .starting, p2 := s.p2 }
  | health1 (s : TwoScopes) : s.p1 = .starting →
      ScopeStep s { s with p1 := .healthy }
  | fail1 (s : TwoScopes) : s.p1 = .starting →
      ScopeStep s { holders := s.holders - 1, p1 := .finished, p2 := s.p2 }
  | exit1 (s : TwoScopes) : s.p1 = .healthy →
      ScopeStep s { holders := s.holders - 1, p1 := .finished, p2 := s.p2 }
  | acquire2 (s : TwoScopes) : s.p2 = .idle → s.holders = 0 →
      ScopeStep s { holders := s.holders + 1, p1 := s.p1, p2 := .starting }
  | health2 (s : TwoScopes) : s.p2 = .starting →
      ScopeStep s { s with p2 := .healthy }
  | fail2 (s : TwoScopes) : s.p2 = .starting →
      ScopeStep s { holders := s.holders - 1, p1 := s.p1, p2 := .finished }
  | exit2 (s : TwoScopes) : s.p2 = .healthy →
      ScopeStep s { holders := s.holders - 1, p1 := s.p1, p2 := .finished }

/-- States reachable from both scopes idle with the lock free. -/
inductive ScopeReachable : TwoScopes → Prop where
  | init : ScopeReachable { holders := 0, p1 := .idle, p2 := .idle }
  | step {s s2 : TwoScopes} : ScopeReachable s → ScopeStep s s2 → ScopeReachable s2

end Cinecut

/-- Helper: the wait loop succeeds as soon as some in-window poll
reports enough free memory. -/
theorem Cinecut.waitLoop_ok (minFree : Int) (interval : Nat) (free : Nat → Int)
    (hi : 0 < interval) :
    ∀ remaining k j, k ≤ j → (j - k) * interval < remaining → minFree ≤ free j →
      Cinecut.waitLoop minFree interval free k remaining = .ok () := by
  intro remaining
  induction remaining using Nat.strong_induction_on with
  | _ remaining ih =>
    intro k j hkj hwin hfree
    rw [Cinecut.waitLoop]
    have hrem : 0 < remaining := lt_of_le_of_lt (Nat.zero_le _) hwin
    rw [if_pos hrem]
    by_cases hk : minFree ≤ free k
    · rw [if_pos hk]
    · rw [if_neg hk, if_pos hi]
      have hkj2 : k < j := by
        cases Nat.lt_or_ge k j with
        | inl h => exact h
        | inr h =>
          have hje : j = k := Nat.le_antisymm h hkj
          subst hje
          exact absurd hfree hk
      apply ih (remaining - interval) (by omega) (k + 1) j (by omega) ?_ hfree
      have e2 : (j - k) * interval = (j - (k + 1)) * interval + interval := by
        have e1 : j - k = (j - (k + 1)) + 1 := by omega
        rw [e1, Nat.succ_mul]
      generalize hB : (j - (k + 1)) * interval = B at e2 ⊢
      generalize hA : (j - k) * interval = A at e2 hwin
      omega

/-- Helper: the wait loop times out when every in-window poll reports
insufficient free memory. -/
theorem Cinecut.waitLoop_timeout (minFree : Int) (interval : Nat) (free : Nat → Int)
    (hi : 0 < interval) :
    ∀ remaining k, (∀ j, k ≤ j → (j - k) * interval < remaining → free j < minFree) →
      Cinecut.waitLoop minFree interval free k remaining = .error .timeout := by
  intro remaining
  induction remaining using Nat.strong_induction_on with
  | _ remaining ih =>
    intro k hall
    rw [Cinecut.waitLoop]
    by_cases hrem : 0 < remaining
    · rw [if_pos hrem]
      have hk : free k < minFree := hall k (le_refl k) (by simpa [Nat.sub_self] using hrem)
      rw [if_neg (not_le.mpr hk), if_pos hi]
      apply ih (remaining - interval) (by omega) (k + 1)
      intro j hj hwin
      apply hall j (by omega)
      have e2 : (j - k) * interval = (j - (k + 1)) * interval + interval := by
        have e1 : j - k = (j - (k + 1)) + 1 := by omega
        rw [e1, Nat.succ_mul]
      generalize hB : (j - (k + 1)) * interval = B at e2 hwin
      generalize hA : (j - k) * interval = A at e2 ⊢
      omega
    · rw [if_neg hrem]

/-- C8: with a positive poll interval, `wait_for_vram` returns
successfully when some poll before the timeout observes free memory at
or above the threshold, and raises the `VramError` timeout when no poll
within the timeout does. -/
theorem Cinecut.wait_for_vram_spec (minFree : Int) (interval timeout : Nat)
    (free : Nat → Int) (hi : 0 < interval) :
    ((∃ k, k * interval < timeout ∧ minFree ≤ free k) →
      Cinecut.wait_for_vram minFree interval timeout free = .ok ())
    ∧ ((∀ k, k * interval < timeout → free k < minFree) →
      Cinecut.wait_for_vram minFree interval timeout free = .error .timeout) := by
  constructor
  · rintro ⟨k, hk1, hk2⟩
    exact Cinecut.waitLoop_ok minFree interval free hi timeout 0 k (Nat.zero_le k)
      (by simpa using hk1) hk2
  · intro hall
    exact Cinecut.waitLoop_timeout minFree interval free hi timeout 0
      (fun j _ hwin => hall j (by simpa using hwin))

/-- C8 witness: with threshold 2, interval 1 and timeout 3, a memory
curve reaching 2 at poll 2 succeeds, and the constant-0 curve times
out. -/
theorem Cinecut.wait_for_vram_spec_witness :
    Cinecut.wait_for_vram 2 1 3 (fun k => (k : Int)) = .ok ()
    ∧ Cinecut.wait_for_vram 2 1 3 (fun _ => 0) = .error .timeout :=
  ⟨(Cinecut.wait_for_vram_spec 2 1 3 (fun k => (k : Int)) (by decide)).1
      ⟨2, by decide, by decide⟩,
   (Cinecut.wait_for_vram_spec 2 1 3 (fun _ => 0) (by decide)).2
      (fun _ _ => by decide)⟩

/-- C10: a missing `nvidia-smi` executable makes `check_vram_free_mib`
raise the OS-level `FileNotFoundError` rather than `VramError`;
`VramError` arises only when the tool ran, for nonzero exit, empty or
unparsable output, or a value below the 6144 MiB minimum; the raw query
reports the same condition as 0 MiB free, so `wait_for_vram` fails only
by exhausting its full timeout. -/
theorem Cinecut.check_vram_missing_smi :
    (Cinecut.check_vram_free_mib .execMissing = .error .fileNotFound)
    ∧ (∀ o r, Cinecut.check_vram_free_mib o = .error (.vram r) →
        ∃ c ls, o = Cinecut.SmiOutcome.ran c ls
          ∧ (c ≠ 0 ∨ ls = [] ∨ (∃ rest, ls = Cinecut.SmiLine.junkLine :: rest)
            ∨ ∃ n rest, ls = Cinecut.SmiLine.intLine n :: rest ∧ n < Cinecut.VRAM_MINIMUM_MIB))
    ∧ (Cinecut.check_vram_raw .execMissing = 0)
    ∧ (∀ (minFree : Int) (interval timeout : Nat), 0 < minFree → 0 < interval →
        Cinecut.wait_for_vram minFree interval timeout
          (fun _ => Cinecut.check_vram_raw .execMissing) = .error .timeout) := by
  refine ⟨rfl, ?_, rfl, ?_⟩
  · intro o r h
    cases o with
    | execMissing => simp [Cinecut.check_vram_free_mib] at h
    | timedOut => simp [Cinecut.check_vram_free_mib] at h
    | ran c ls =>
      refine ⟨c, ls, rfl, ?_⟩
      by_cases hc : c = 0
      · subst hc
        cases ls with
        | nil => exact Or.inr (Or.inl rfl)
        | cons l rest =>
          cases l with
          | junkLine => exact Or.inr (Or.inr (Or.inl ⟨rest, rfl⟩))
          | intLine n =>
            refine Or.inr (Or.inr (Or.inr ⟨n, rest, rfl, ?_⟩))
            by_cases hn : n < Cinecut.VRAM_MINIMUM_MIB
            · exact hn
            · simp [Cinecut.check_vram_free_mib, hn] at h
      · exact Or.inl hc
  · intro minFree interval timeout hm hi
    exact Cinecut.waitLoop_timeout minFree interval
      (fun _ => Cinecut.check_vram_raw .execMissing) hi timeout 0
      (fun _ _ _ => by simpa [Cinecut.check_vram_raw] using hm)

/-- C10 witness: concrete instances of the two conditional parts — a
nonzero-exit run is classified as a tool-ran failure, and the full wait
with the missing-executable raw query at the default parameters times
out. -/
theorem Cinecut.check_vram_missing_smi_witness :
    (∃ c ls, Cinecut.SmiOutcome.ran 2 [] = Cinecut.SmiOutcome.ran c ls
      ∧ (c ≠ 0 ∨ ls = [] ∨ (∃ rest, ls = Cinecut.SmiLine.junkLine :: rest)
        ∨ ∃ n rest, ls = Cinecut.SmiLine.intLine n :: rest ∧ n < Cinecut.VRAM_MINIMUM_MIB))
    ∧ Cinecut.wait_for_vram 6144 2 60
        (fun _ => Cinecut.check_vram_raw .execMissing) = .error .timeout :=
  ⟨Cinecut.check_vram_missing_smi.2.1 (Cinecut.SmiOutcome.ran 2 []) .smiFailed rfl,
   Cinecut.check_vram_missing_smi.2.2.2 6144 2 60 (by decide) (by decide)⟩

/-- C4: saving any checkpoint value and loading it back from the same
directory returns an equal checkpoint, field by field
(`load_checkpoint(save_checkpoint(c, d), d) == c`). -/
theorem Cinecut.checkpoint_roundtrip (c : Cinecut.PipelineCheckpoint) :
    Cinecut.load_checkpoint (Cinecut.save_checkpoint_content c) = .ok (some c) := rfl

/-- C5 counterexample: the claim says `load_checkpoint` never raises, but
on a checkpoint file whose bytes do not decode as UTF-8 the
`read_text(encoding="utf-8")` call raises `UnicodeDecodeError`, which is
outside the `try` block and propagates to the caller. -/
theorem Cinecut.load_checkpoint_raises_on_non_utf8 :
    Cinecut.load_checkpoint (some Cinecut.FileBytes.notUtf8) =
      .error Cinecut.PyError.unicodeDecodeError := rfl

/-- C5 amended: whenever the checkpoint file is absent, or its bytes
decode as UTF-8 but are invalid JSON, or parse to a value of the wrong
shape, `load_checkpoint` returns None rather than raising; only bytes
that do not decode as UTF-8 make it raise (`UnicodeDecodeError`). -/
theorem Cinecut.load_checkpoint_absorbs_corruption :
    (Cinecut.load_checkpoint none = .ok none)
    ∧ (Cinecut.load_checkpoint (some (.utf8 .invalid)) = .ok none)
    ∧ (∀ j, Cinecut.load_checkpoint (some (.utf8 (.valid j))) =
        .ok (Cinecut.fromJsonCheckpoint j))
    ∧ (Cinecut.fromJsonCheckpoint (.obj [("bad", .str "data")]) = none)
    ∧ (Cinecut.load_checkpoint (some (.utf8 (.valid (.obj [("bad", .str "data")])))) =
        .ok none) :=
  ⟨rfl, rfl, fun _ => rfl, rfl, rfl⟩

/-- Helper: an encoded (record, description-or-None) pair parses back to
itself, with an absent description staying absent. -/
theorem Cinecut.parseItem_encodeItem (rd : Cinecut.KeyframeRecord × Option Cinecut.SceneDescription) :
    Cinecut.parseItem (Cinecut.encodeItem rd) = some rd := by
  obtain ⟨r, d⟩ := rd
  cases d <;> rfl

/-- Helper: the encoded results array parses back to the original list. -/
theorem Cinecut.parseItems_map_encode (rs : Cinecut.CacheResults) :
    Cinecut.parseItems (rs.map Cinecut.encodeItem) = some rs := by
  induction rs with
  | nil => rfl
  | cons hd tl ih => simp [Cinecut.parseItems, Cinecut.parseItem_encodeItem, ih]

/-- Helper: decoding the payload written by `save_cache` recovers the
stored mtime, size and results. -/
theorem Cinecut.decodeCachePayload_saved (rs : Cinecut.CacheResults) (p : String)
    (st : Cinecut.FileStat) :
    Cinecut.decodeCachePayload (Cinecut.cachePayload rs p st) =
      some (.int st.mtime, .int st.size, rs) := by
  simp [Cinecut.decodeCachePayload, Cinecut.cachePayload, Cinecut.getItem, Cinecut.lookupMsg,
    Cinecut.pyIter, Cinecut.parseItems_map_encode]

/-- Helper: on an unpackable cache file, `load_cache` equals "decode the
payload, then admit the results exactly when both stored metadata values
equal the fresh stat" — the interleaved comparisons of the source
collapse to this staged form. -/
theorem Cinecut.load_cache_packed_eq (m : Cinecut.Msg) (stv : Cinecut.FileStat) :
    Cinecut.load_cache (some (.packed m)) (some stv) =
      (match Cinecut.decodeCachePayload m with
       | some (mt, sz, rs) =>
         if Cinecut.msgEqInt mt stv.mtime && Cinecut.msgEqInt sz stv.size then some rs else none
       | none => none) := by
  cases h1 : Cinecut.getItem m "metadata" with
  | none => simp [Cinecut.load_cache, Cinecut.decodeCachePayload, h1]
  | some meta =>
    cases h2 : Cinecut.getItem meta "mtime" with
    | none => simp [Cinecut.load_cache, Cinecut.decodeCachePayload, h1, h2]
    | some mt =>
      cases h3 : Cinecut.getItem meta "size" with
      | none =>
        cases hb : Cinecut.msgEqInt mt stv.mtime <;>
          simp [Cinecut.load_cache, Cinecut.decodeCachePayload, h1, h2, h3, hb]
      | some sz =>
        cases h4 : Cinecut.getItem m "results" with
        | none =>
          cases hb : Cinecut.msgEqInt mt stv.mtime <;>
            cases hb2 : Cinecut.msgEqInt sz stv.size <;>
              simp [Cinecut.load_cache, Cinecut.decodeCachePayload, h1, h2, h3, h4, hb, hb2]
        | some rsv =>
          cases h5 : Cinecut.pyIter rsv with
          | none =>
            cases hb : Cinecut.msgEqInt mt stv.mtime <;>
              cases hb2 : Cinecut.msgEqInt sz stv.size <;>
                simp [Cinecut.load_cache, Cinecut.decodeCachePayload, h1, h2, h3, h4, h5, hb, hb2]
          | some items =>
            cases h6 : Cinecut.parseItems items with
            | none =>
              cases hb : Cinecut.msgEqInt mt stv.mtime <;>
                cases hb2 : Cinecut.msgEqInt sz stv.size <;>
                  simp [Cinecut.load_cache, Cinecut.decodeCachePayload,
                    h1, h2, h3, h4, h5, h6, hb, hb2]
            | some rs =>
              cases hb : Cinecut.msgEqInt mt stv.mtime <;>
                cases hb2 : Cinecut.msgEqInt sz stv.size <;>
                  simp [Cinecut.load_cache, Cinecut.decodeCachePayload,
                    h1, h2, h3, h4, h5, h6, hb, hb2]

/-- C6: `load_cache` yields a stored results list exactly when the cache
file exists, unpacks, its payload deserializes, and the stored mtime and
size both equal the fresh stat of the source; a changed mtime alone or a
changed size alone each invalidates a previously saved cache, a corrupt
or absent file or a failing source stat yields absent, and the function
is total (every branch returns, modelling the blanket `except`). -/
theorem Cinecut.load_cache_validity :
    (∀ f st r, Cinecut.load_cache f (some st) = some r ↔
      ∃ m mt sz, f = some (.packed m)
        ∧ Cinecut.decodeCachePayload m = some (mt, sz, r)
        ∧ Cinecut.msgEqInt mt st.mtime = true
        ∧ Cinecut.msgEqInt sz st.size = true)
    ∧ (∀ rs p st, Cinecut.load_cache (Cinecut.save_cache_content rs p st)
        (some { mtime := st.mtime + 1, size := st.size }) = none)
    ∧ (∀ rs p st, Cinecut.load_cache (Cinecut.save_cache_content rs p st)
        (some { mtime := st.mtime, size := st.size + 1 }) = none)
    ∧ (∀ st, Cinecut.load_cache (some .corrupt) st = none)
    ∧ (∀ st, Cinecut.load_cache none st = none)
    ∧ (∀ f, Cinecut.load_cache f none = none) := by
  refine ⟨?_, ?_, ?_, ?_, ?_, ?_⟩
  · intro f st r
    constructor
    · intro h
      match f with
      | none => simp [Cinecut.load_cache] at h
      | some .corrupt => simp [Cinecut.load_cache] at h
      | some (.packed m) =>
        rw [Cinecut.load_cache_packed_eq] at h
        cases hd : Cinecut.decodeCachePayload m with
        | none => rw [hd] at h; simp at h
        | some v =>
          obtain ⟨mt, sz, rs⟩ := v
          rw [hd] at h
          simp only [] at h
          by_cases hb : (Cinecut.msgEqInt mt st.mtime && Cinecut.msgEqInt sz st.size) = true
          · rw [if_pos hb] at h
            have hb2 := hb
            rw [Bool.and_eq_true] at hb2
            obtain ⟨hm1, hs1⟩ := hb2
            exact ⟨m, mt, sz, rfl, by rw [hd]; injection h with h; rw [h], hm1, hs1⟩
          · rw [if_neg hb] at h; simp at h
    · rintro ⟨m, mt, sz, rfl, hd, hm, hs⟩
      rw [Cinecut.load_cache_packed_eq, hd]
      simp [hm, hs]
  · intro rs p st
    rw [Cinecut.save_cache_content, Cinecut.load_cache_packed_eq,
      Cinecut.decodeCachePayload_saved]
    have : Cinecut.msgEqInt (.int st.mtime) (st.mtime + 1) = false := by
      simp [Cinecut.msgEqInt]
    simp [this]
  · intro rs p st
    rw [Cinecut.save_cache_content, Cinecut.load_cache_packed_eq,
      Cinecut.decodeCachePayload_saved]
    have : Cinecut.msgEqInt (.int st.size) (st.size + 1) = false := by
      simp [Cinecut.msgEqInt]
    simp [this]
  · intro st; rfl
  · intro st; rfl
  · intro f; cases f with
    | none => rfl
    | some b => cases b with
      | corrupt => rfl
      | packed m => simp [Cinecut.load_cache]; cases Cinecut.getItem m "metadata" <;> rfl

/-- C7: a list of N (keyframe record, description-or-absent) pairs saved
with `save_cache` is returned by `load_cache` against an unchanged
source stat exactly as stored — same N pairs, same order, absent
descriptions preserved as absent. -/
theorem Cinecut.cache_roundtrip (rs : Cinecut.CacheResults) (p : String)
    (st : Cinecut.FileStat) :
    Cinecut.load_cache (Cinecut.save_cache_content rs p st) (some st) = some rs := by
  rw [Cinecut.save_cache_content, Cinecut.load_cache_packed_eq,
    Cinecut.decodeCachePayload_saved]
  simp [Cinecut.msgEqInt]

/-- C3: on success the atomic write leaves no temporary file, and
cleanup works for a failing `os.write` or `os.fsync`; but when the
failure strikes at `os.replace` (or at `os.close` itself) the `except`
block re-closes the already-closed descriptor, raises EBADF, and skips
`os.unlink` — the temporary file remains and the propagated error is the
EBADF, contradicting the claim that the temporary file is always removed
before the error propagates. -/
theorem Cinecut.save_atomic_tmp_cleanup :
    ((Cinecut.save_atomic .noFault).1.tmpExists = false
      ∧ (Cinecut.save_atomic .noFault).1.destUpdated = true
      ∧ (Cinecut.save_atomic .noFault).2 = none)
    ∧ ((Cinecut.save_atomic .write).1.tmpExists = false
      ∧ (Cinecut.save_atomic .write).2 = some (.original .write))
    ∧ ((Cinecut.save_atomic .fsync).1.tmpExists = false
      ∧ (Cinecut.save_atomic .fsync).2 = some (.original .fsync))
    ∧ ((Cinecut.save_atomic .close).1.tmpExists = true
      ∧ (Cinecut.save_atomic .close).2 = some .badFd)
    ∧ ((Cinecut.save_atomic .replace).1.tmpExists = true
      ∧ (Cinecut.save_atomic .replace).2 = some .badFd) := by
  decide

/-- C9 counterexample: a single frame whose response body is malformed
in a shape raising `TypeError`/`AttributeError` (a JSON-array body, a
null message, a null content — none in the `except` tuple) aborts the
whole stage with the uncaught error instead of yielding that pair with
an absent description. -/
theorem Cinecut.run_inference_stage_aborts_on_uncaught_malformed :
    Cinecut.run_inference_stage
      [(⟨.int 0, .str "f0", .str "subtitle_midpoint"⟩,
        Cinecut.FrameOutcome.malformedUncaught)] =
      .error Cinecut.UncaughtError.typeOrAttrError := rfl

/-- C9 amended: when no frame's image read fails and no response is
malformed in the uncaught `TypeError`/`AttributeError` shapes,
`run_inference_stage` returns exactly one (record,
description-or-absent) pair per input record, in input order, and every
caught per-frame failure (request error, malformed response raising
`KeyError`/`IndexError`/`JSONDecodeError`, validation error) yields an
absent description for that pair rather than aborting the stage. -/
theorem Cinecut.run_inference_stage_spec
    (inputs : List (Cinecut.KeyframeRecord × Cinecut.FrameOutcome))
    (h : ∀ p ∈ inputs, p.2 ≠ Cinecut.FrameOutcome.readFails
      ∧ p.2 ≠ Cinecut.FrameOutcome.malformedUncaught) :
    Cinecut.run_inference_stage inputs =
      .ok (inputs.map fun p => (p.1, Cinecut.frameResultSpec p.2)) := by
  induction inputs with
  | nil => rfl
  | cons hd tl ih =>
    obtain ⟨r, o⟩ := hd
    have ho := h (r, o) (List.mem_cons_self _ _)
    have htl := ih (fun p hp => h p (List.mem_cons_of_mem _ hp))
    cases o with
    | readFails => exact absurd rfl ho.1
    | malformedUncaught => exact absurd rfl ho.2
    | requestFails =>
      simp [Cinecut.run_inference_stage, Cinecut.describe_frame, htl, Cinecut.frameResultSpec]
    | malformedResponse =>
      simp [Cinecut.run_inference_stage, Cinecut.describe_frame, htl, Cinecut.frameResultSpec]
    | invalidSchema =>
      simp [Cinecut.run_inference_stage, Cinecut.describe_frame, htl, Cinecut.frameResultSpec]
    | ok d =>
      simp [Cinecut.run_inference_stage, Cinecut.describe_frame, htl, Cinecut.frameResultSpec]

/-- C9 witness: a two-record input where the first frame's request fails
and the second succeeds yields both pairs in order, the failed one with
an absent description. -/
theorem Cinecut.run_inference_stage_spec_witness :
    Cinecut.run_inference_stage
      [(⟨.int 0, .str "f0", .str "subtitle_midpoint"⟩, .requestFails),
       (⟨.int 1, .str "f1", .str "scene_change"⟩,
        .ok ⟨.str "v", .str "m", .str "a", .str "s"⟩)] =
      .ok [(⟨.int 0, .str "f0", .str "subtitle_midpoint"⟩, none),
           (⟨.int 1, .str "f1", .str "scene_change"⟩,
            some ⟨.str "v", .str "m", .str "a", .str "s"⟩)] :=
  Cinecut.run_inference_stage_spec _ (by
    intro p hp
    simp only [List.mem_cons, List.not_mem_nil, or_false] at hp
    rcases hp with rfl | rfl <;> exact ⟨by simp, by simp⟩)

/-- C1: on every exit path of a lifecycle scope — healthy body, raising
body, or a raise during startup itself (pre-flight, spawn, early child
exit, health timeout) — the final state has the mutex unlocked and the
spawned process (if any) no longer running, and in the event trace every
process shutdown precedes the lock release. -/
theorem Cinecut.engine_scope_release (o : Cinecut.EnterOutcome) (bodyRaises : Bool)
    (b : Cinecut.StopBehavior) :
    ((Cinecut.engineScope o bodyRaises b Cinecut.initialLifecycle).1.holders = 0)
    ∧ ((Cinecut.engineScope o bodyRaises b Cinecut.initialLifecycle).1.running = false)
    ∧ (Cinecut.shutdownPrecedesRelease
        (Cinecut.engineScope o bodyRaises b Cinecut.initialLifecycle).2.1 = true) := by
  cases o <;> cases bodyRaises <;> cases b <;> decide

/-- Helper invariant for the two-scope interleaving: the holder count of
the shared lock equals the number of scopes in a lock-holding phase, and
never exceeds one. -/
theorem Cinecut.scope_lock_inv (s : Cinecut.TwoScopes) (h : Cinecut.ScopeReachable s) :
    s.holders = Cinecut.lockCount s ∧ s.holders ≤ 1 := by
  induction h with
  | init => simp [Cinecut.lockCount, Cinecut.holdsLock]
  | @step s s2 hr hs ih =>
    obtain ⟨ihc, ihle⟩ := ih
    cases hs with
    | acquire1 h1 h0 =>
      cases hp : s.p2 <;>
        simp [Cinecut.lockCount, Cinecut.holdsLock, h1, hp, h0] at ihc ⊢
    | health1 h1 =>
      cases hp : s.p2 <;>
        simp [Cinecut.lockCount, Cinecut.holdsLock, h1, hp] at ihc ⊢ <;> omega
    | fail1 h1 =>
      cases hp : s.p2 <;>
        simp [Cinecut.lockCount, Cinecut.holdsLock, h1, hp] at ihc ⊢ <;> omega
    | exit1 h1 =>
      cases hp : s.p2 <;>
        simp [Cinecut.lockCount, Cinecut.holdsLock, h1, hp] at ihc ⊢ <;> omega
    | acquire2 h1 h0 =>
      cases hp : s.p1 <;>
        simp [Cinecut.lockCount, Cinecut.holdsLock, h1, hp, h0] at ihc ⊢
    | health2 h1 =>
      cases hp : s.p1 <;>
        simp [Cinecut.lockCount, Cinecut.holdsLock, h1, hp] at ihc ⊢ <;> omega
    | fail2 h1 =>
      cases hp : s.p1 <;>
        simp [Cinecut.lockCount, Cinecut.holdsLock, h1, hp] at ihc ⊢ <;> omega
    | exit2 h1 =>
      cases hp : s.p1 <;>
        simp [Cinecut.lockCount, Cinecut.holdsLock, h1, hp] at ihc ⊢ <;> omega

/-- C2: in every reachable interleaving of two lifecycle scopes over the
shared GPU mutex, the mutex has at most one holder, and the two scopes
are never simultaneously in their healthy windows. -/
theorem Cinecut.gpu_lock_mutual_exclusion (s : Cinecut.TwoScopes)
    (h : Cinecut.ScopeReachable s) :
    s.holders ≤ 1 ∧ ¬(s.p1 = Cinecut.Phase.healthy ∧ s.p2 = Cinecut.Phase.healthy) := by
  obtain ⟨hc, hle⟩ := Cinecut.scope_lock_inv s h
  refine ⟨hle, ?_⟩
  rintro ⟨hp1, hp2⟩
  rw [Cinecut.lockCount, hp1, hp2] at hc
  simp [Cinecut.holdsLock] at hc
  omega

/-- C2 witness: the state where the first scope has just acquired the
lock is reachable, has at most one holder, and is not a doubly-healthy
state. -/
theorem Cinecut.gpu_lock_mutual_exclusion_witness :
    ({ holders := 1, p1 := .starting, p2 := .idle } : Cinecut.TwoScopes).holders ≤ 1
    ∧ ¬(({ holders := 1, p1 := .starting, p2 := .idle } : Cinecut.TwoScopes).p1 =
          Cinecut.Phase.healthy
        ∧ ({ holders := 1, p1 := .starting, p2 := .idle } : Cinecut.TwoScopes).p2 =
          Cinecut.Phase.healthy) :=
  Cinecut.gpu_lock_mutual_exclusion _
    (Cinecut.ScopeReachable.step Cinecut.ScopeReachable.init
      (Cinecut.ScopeStep.acquire1 _ rfl rfl))
